import Mathlib

/-!
A shallow embedding of the client-side persistence service in
src/app/lib/services/supabase-persistence.ts, together with proofs about
its offline write queue, its save/get/delete operations, the drain loop
that replays queued writes, and the derived sync-status snapshot.

Modelling conventions:
- The remote store is a record of per-table row lists; a remote call that
  the code performs is counted in the Nat component of each operation's
  result, and its success or failure is an explicit Bool parameter (the
  TypeScript code observes it as the `error` field of the response).
- `Date.now()` and row timestamps are modelled by a `clock` field of the
  world, read but never advanced (a single instant).
- Database-generated row ids are modelled by deterministic stand-in
  strings derived from the conflict key, or by explicit parameters where
  the caller receives the id back.
- `localStorage` is modelled by the `storage` field: the value stored
  under the supabase_offline_queue key, `none` when the key was never set.
- TypeScript exceptions are modelled by `Except`; operations that the
  source never lets throw are total Lean functions.
-/

namespace Persistence

/-- Identity context (interface UserContext). -/
structure UserContext where
  userId : String
  clerkUserId : String
deriving DecidableEq

/-- Payload of saveChatMessage (interface ChatMessage). -/
structure ChatMessage where
  id : Option String := none
  projectId : String
  role : String
  content : String
  modelUsed : Option String := none
  tokensUsed : Option Nat := none
  responseTimeMs : Option Nat := none
  generatedScreens : Option (List String) := none
deriving DecidableEq

/-- Payload of saveDesignFile (interface DesignFile). -/
structure DesignFile where
  id : Option String := none
  projectId : String
  filePath : String
  fileType : String
  content : String
  fileSize : Option Nat := none
  lastModified : Option Nat := none
deriving DecidableEq

/-- Payload of saveProjectFile (interface ProjectFile). -/
structure ProjectFile where
  id : Option String := none
  projectId : String
  filePath : String
  content : String
  isBinary : Option Bool := none
  mimeType : Option String := none
  fileSize : Option Nat := none
  isDeleted : Option Bool := none
deriving DecidableEq

/-- Payload of saveUserSettings (interface UserSettings); the open
`Record` blobs are modelled as association lists. -/
structure UserSettings where
  theme : Option String := none
  providerSettings : Option (List (String × String)) := none
  autoEnabledProviders : Option (List String) := none
  mcpSettings : Option (List (String × String)) := none
  githubConnection : Option (List (String × String)) := none
  gitlabConnection : Option (List (String × String)) := none
  vercelConnection : Option (List (String × String)) := none
  netlifyConnection : Option (List (String × String)) := none
  supabaseConnection : Option (List (String × String)) := none
  viewedFeatures : Option (List String) := none
deriving DecidableEq

/-- Row of the chat_history table. -/
structure ChatRow where
  id : String
  project_id : String
  user_id : String
  role : String
  content : String
  model_used : Option String
  tokens_used : Option Nat
  response_time_ms : Option Nat
  generated_screens : List String
  created_at : Nat
deriving DecidableEq

/-- Row of the design_files table. -/
structure DesignRow where
  id : String
  project_id : String
  user_id : String
  file_path : String
  file_type : String
  content : String
  file_size : Nat
  last_modified : Nat
deriving DecidableEq

/-- Row of the project_files table. -/
structure ProjectFileRow where
  id : String
  project_id : String
  user_id : String
  file_path : String
  content : String
  is_binary : Bool
  mime_type : Option String
  file_size : Nat
  is_deleted : Bool
  deleted_at : Option Nat
deriving DecidableEq

/-- Row of the users table. -/
structure UserRow where
  id : String
  clerk_user_id : String
  email : String
  full_name : Option String
  last_login_at : Nat
deriving DecidableEq

/-- Row of the projects table. -/
structure ProjectRow where
  id : String
  user_id : String
  name : String
  description : Option String
  status : String
  canvas_state : Option String
  updated_at : Nat
deriving DecidableEq

/-- Row of the user_settings table. -/
structure SettingsRow where
  user_id : String
  theme : Option String
  provider_settings : List (String × String)
  auto_enabled_providers : List String
  mcp_settings : List (String × String)
  github_connection : Option (List (String × String))
  gitlab_connection : Option (List (String × String))
  vercel_connection : Option (List (String × String))
  netlify_connection : Option (List (String × String))
  supabase_connection : Option (List (String × String))
  viewed_features : List String
deriving DecidableEq

/-- Row of the canvas_snapshots table (append-only). -/
structure SnapshotRow where
  project_id : String
  user_id : String
  canvas_state : String
  name : String
deriving DecidableEq

/-- The remote relational store, one list of rows per table. -/
structure RemoteDB where
  users : List UserRow := []
  projects : List ProjectRow := []
  chat_history : List ChatRow := []
  design_files : List DesignRow := []
  project_files : List ProjectFileRow := []
  user_settings : List SettingsRow := []
  canvas_snapshots : List SnapshotRow := []
deriving DecidableEq

/-- The kinds of operation that queueOperation is ever called with: its
three call sites are the error and no-context paths of saveChatMessage,
saveDesignFile and saveProjectFile. -/
inductive SaveOp where
  | saveChatMessage (m : ChatMessage)
  | saveDesignFile (f : DesignFile)
  | saveProjectFile (f : ProjectFile)
deriving DecidableEq

/-- An entry of the offline queue: the operation tag and payload pushed by
queueOperation together with its capture timestamp. -/
structure QueuedOp where
  op : SaveOp
  timestamp : Nat
deriving DecidableEq

/-- The mutable fields of the SupabasePersistenceService instance. The
`supabase` flag records whether the store client handle was created. -/
structure ServiceState where
  supabase : Bool
  userContext : Option UserContext
  isOnline : Bool
  offlineQueue : List QueuedOp
deriving DecidableEq

/-- The whole world an operation can touch: the service instance, the
remote store, the persisted queue copy in local storage, and the clock. -/
structure World where
  svc : ServiceState
  db : RemoteDB
  storage : Option (List QueuedOp) := none
  clock : Nat := 0
deriving DecidableEq

/-- The constructor: the queue starts empty (`offlineQueue: any[] = []`),
the user context unset, connectivity read from navigator.onLine, and the
store handle present exactly when both credentials are configured. The
constructor performs no read of local storage. -/
def constructService (hasCreds : Bool) (navigatorOnLine : Bool) : ServiceState :=
  { supabase := hasCreds
  , userContext := none
  , isOnline := navigatorOnLine
  , offlineQueue := [] }

/-- Constructing a fresh service instance in the same client: the remote
store, local storage and clock survive, the in-memory instance is rebuilt
by the constructor. -/
def restartClient (hasCreds : Bool) (navigatorOnLine : Bool) (w : World) : World :=
  { w with svc := constructService hasCreds navigatorOnLine }

/-- setUserContext. -/
def setUserContext (ctx : UserContext) (w : World) : World :=
  { w with svc := { w.svc with userContext := some ctx } }

/-- queueOperation: pushes the tagged payload with a Date.now() timestamp
and persists the full queue to local storage. -/
def queueOperation (op : SaveOp) (w : World) : World :=
  let q := w.svc.offlineQueue ++ [⟨op, w.clock⟩]
  { w with svc := { w.svc with offlineQueue := q }, storage := some q }

/-- The chat_history row assembled by saveChatMessage; a missing or empty
(falsy) message id falls back to the projectId and timestamp. -/
def chatRowOf (uid : String) (clock : Nat) (m : ChatMessage) : ChatRow :=
  { id := match m.id with
      | some s => if s = "" then m.projectId ++ "_" ++ toString clock else s
      | none => m.projectId ++ "_" ++ toString clock
  , project_id := m.projectId
  , user_id := uid
  , role := m.role
  , content := m.content
  , model_used := m.modelUsed
  , tokens_used := m.tokensUsed
  , response_time_ms := m.responseTimeMs
  , generated_screens := m.generatedScreens.getD []
  , created_at := clock }

/-- Upsert into chat_history with onConflict id: a row with the same id is
updated in place (its creation time is a column the write does not
supply), otherwise the row is inserted. -/
def chatUpsert (row : ChatRow) (rows : List ChatRow) : List ChatRow :=
  if rows.any (fun r => r.id == row.id) then
    rows.map (fun r => if r.id == row.id then { row with created_at := r.created_at } else r)
  else rows ++ [row]

/-- The design_files row assembled by saveDesignFile: file_size is the
length of the content (not the caller-supplied fileSize), and the
last-modified stamp is maintained by the store. The id stand-in is used
only on insert. -/
def designRowOf (uid : String) (clock : Nat) (f : DesignFile) : DesignRow :=
  { id := "design:" ++ f.projectId ++ ":" ++ f.filePath
  , project_id := f.projectId
  , user_id := uid
  , file_path := f.filePath
  , file_type := f.fileType
  , content := f.content
  , file_size := f.content.length
  , last_modified := clock }

/-- Upsert into design_files with onConflict project_id,file_path; an
existing row keeps its id. -/
def designUpsert (row : DesignRow) (rows : List DesignRow) : List DesignRow :=
  if rows.any (fun r => r.project_id == row.project_id && r.file_path == row.file_path) then
    rows.map (fun r =>
      if r.project_id == row.project_id && r.file_path == row.file_path then
        { row with id := r.id }
      else r)
  else rows ++ [row]

/-- The file_size sent by saveProjectFile: `file.fileSize` when truthy
(present and nonzero), otherwise the content length (zero for empty
content). -/
def projectFileSize (f : ProjectFile) : Nat :=
  match f.fileSize with
  | some n => if n = 0 then f.content.length else n
  | none => f.content.length

/-- The project_files row assembled by saveProjectFile. The deletion stamp
is a column the write does not supply. -/
def projectFileRowOf (uid : String) (_clock : Nat) (f : ProjectFile) : ProjectFileRow :=
  { id := "pf:" ++ f.projectId ++ ":" ++ f.filePath
  , project_id := f.projectId
  , user_id := uid
  , file_path := f.filePath
  , content := f.content
  , is_binary := f.isBinary.getD false
  , mime_type := f.mimeType
  , file_size := projectFileSize f
  , is_deleted := f.isDeleted.getD false
  , deleted_at := none }

/-- Upsert into project_files with onConflict project_id,file_path; an
existing row keeps its id and its deletion stamp. -/
def projectFileUpsert (row : ProjectFileRow) (rows : List ProjectFileRow) : List ProjectFileRow :=
  if rows.any (fun r => r.project_id == row.project_id && r.file_path == row.file_path) then
    rows.map (fun r =>
      if r.project_id == row.project_id && r.file_path == row.file_path then
        { row with id := r.id, deleted_at := r.deleted_at }
      else r)
  else rows ++ [row]

/-- The user_settings row assembled by saveUserSettings, with the same
defaulting of absent fields as the source. -/
def settingsRowOf (uid : String) (s : UserSettings) : SettingsRow :=
  { user_id := uid
  , theme := s.theme
  , provider_settings := s.providerSettings.getD []
  , auto_enabled_providers := s.autoEnabledProviders.getD []
  , mcp_settings := s.mcpSettings.getD []
  , github_connection := s.githubConnection
  , gitlab_connection := s.gitlabConnection
  , vercel_connection := s.vercelConnection
  , netlify_connection := s.netlifyConnection
  , supabase_connection := s.supabaseConnection
  , viewed_features := s.viewedFeatures.getD [] }

/-- Upsert into user_settings with onConflict user_id. -/
def settingsUpsert (row : SettingsRow) (rows : List SettingsRow) : List SettingsRow :=
  if rows.any (fun r => r.user_id == row.user_id) then
    rows.map (fun r => if r.user_id == row.user_id then row else r)
  else rows ++ [row]

/-- The remote effect of a successful queued-kind save: the idempotent
upsert each of the three save operations issues. -/
def applySave (uid : String) (clock : Nat) (op : SaveOp) (db : RemoteDB) : RemoteDB :=
  match op with
  | .saveChatMessage m => { db with chat_history := chatUpsert (chatRowOf uid clock m) db.chat_history }
  | .saveDesignFile f => { db with design_files := designUpsert (designRowOf uid clock f) db.design_files }
  | .saveProjectFile f => { db with project_files := projectFileUpsert (projectFileRowOf uid clock f) db.project_files }

/-- saveChatMessage. With no store handle or no user context the payload
is queued without touching the network; otherwise one upsert is attempted
and, if it reports an error, the payload is queued. The caller never sees
an error. The Nat counts attempted remote calls. -/
def saveChatMessage (remoteOk : Bool) (m : ChatMessage) (w : World) : World × Nat :=
  match w.svc.supabase, w.svc.userContext with
  | true, some ctx =>
    if remoteOk then
      ({ w with db := applySave ctx.userId w.clock (.saveChatMessage m) w.db }, 1)
    else
      (queueOperation (.saveChatMessage m) w, 1)
  | _, _ => (queueOperation (.saveChatMessage m) w, 0)

/-- saveDesignFile, with the same queue-on-absence and queue-on-error
shape as saveChatMessage. -/
def saveDesignFile (remoteOk : Bool) (f : DesignFile) (w : World) : World × Nat :=
  match w.svc.supabase, w.svc.userContext with
  | true, some ctx =>
    if remoteOk then
      ({ w with db := applySave ctx.userId w.clock (.saveDesignFile f) w.db }, 1)
    else
      (queueOperation (.saveDesignFile f) w, 1)
  | _, _ => (queueOperation (.saveDesignFile f) w, 0)

/-- saveProjectFile, with the same queue-on-absence and queue-on-error
shape as saveChatMessage. -/
def saveProjectFile (remoteOk : Bool) (f : ProjectFile) (w : World) : World × Nat :=
  match w.svc.supabase, w.svc.userContext with
  | true, some ctx =>
    if remoteOk then
      ({ w with db := applySave ctx.userId w.clock (.saveProjectFile f) w.db }, 1)
    else
      (queueOperation (.saveProjectFile f) w, 1)
  | _, _ => (queueOperation (.saveProjectFile f) w, 0)

/-- saveUserSettings. Unlike the other save operations it never calls
queueOperation: with no store handle or no user context it returns at
once, and a remote error is only logged. -/
def saveUserSettings (remoteOk : Bool) (s : UserSettings) (w : World) : World × Nat :=
  match w.svc.supabase, w.svc.userContext with
  | true, some ctx =>
    if remoteOk then
      ({ w with db := { w.db with user_settings := settingsUpsert (settingsRowOf ctx.userId s) w.db.user_settings } }, 1)
    else
      (w, 1)
  | _, _ => (w, 0)

/-- The message shape getChatHistory maps rows to. -/
structure MessageOut where
  id : String
  role : String
  content : String
deriving DecidableEq

/-- getChatHistory: requires store handle and user context, filters by
project and owner, orders by creation time ascending, and returns an
empty list on absence or on a remote error. It never throws and never
touches the service state. -/
def getChatHistory (remoteOk : Bool) (projectId : String) (w : World) : List MessageOut :=
  match w.svc.supabase, w.svc.userContext with
  | true, some ctx =>
    if remoteOk then
      ((w.db.chat_history.filter
          (fun r => r.project_id == projectId && r.user_id == ctx.userId)).mergeSort
        (fun a b => a.created_at ≤ b.created_at)).map
        (fun r => { id := r.id, role := r.role, content := r.content })
    else []
  | _, _ => []

/-- deleteChatHistory: hard-deletes the project's rows owned by the
current context; errors are only logged. -/
def deleteChatHistory (remoteOk : Bool) (projectId : String) (w : World) : World × Nat :=
  match w.svc.supabase, w.svc.userContext with
  | true, some ctx =>
    if remoteOk then
      let rows := w.db.chat_history.filter
        (fun r => !(r.project_id == projectId && r.user_id == ctx.userId))
      ({ w with db := { w.db with chat_history := rows } }, 1)
    else (w, 1)
  | _, _ => (w, 0)

/-- createProject: throws when unauthenticated or on a remote error; the new
row id is database-generated and is a parameter here because the caller
receives it back. -/
def createProject (remoteOk : Bool) (newId : String) (projName : String)
    (descr : Option String) (w : World) : Except String (World × String) :=
  match w.svc.supabase, w.svc.userContext with
  | true, some ctx =>
    if remoteOk then
      .ok ({ w with db := { w.db with projects := w.db.projects ++
        [{ id := newId, user_id := ctx.userId, name := projName, description := descr
         , status := "active", canvas_state := none, updated_at := w.clock }] } }, newId)
    else .error "RemoteError"
  | _, _ => .error "Not authenticated"

/-- getProjects: owner-scoped, filtered to status active, ordered by the
update stamp descending, capped at 50 rows; empty on absence or error. -/
def getProjects (remoteOk : Bool) (w : World) : List ProjectRow :=
  match w.svc.supabase, w.svc.userContext with
  | true, some ctx =>
    if remoteOk then
      (((w.db.projects.filter
          (fun r => r.user_id == ctx.userId && r.status == "active")).mergeSort
        (fun a b => b.updated_at ≤ a.updated_at)).take 50)
    else []
  | _, _ => []

/-- The column patch updateProject sends (`updates: any`), restricted to
the columns the application writes through it. -/
structure ProjectPatch where
  name : Option String := none
  description : Option (Option String) := none
  status : Option String := none
  canvas_state : Option (Option String) := none
deriving DecidableEq

/-- Application of an update patch to one projects row. -/
def applyProjectPatch (p : ProjectPatch) (r : ProjectRow) : ProjectRow :=
  { r with name := p.name.getD r.name
         , description := p.description.getD r.description
         , status := p.status.getD r.status
         , canvas_state := p.canvas_state.getD r.canvas_state }

/-- updateProject: patches the owner-scoped row; errors are only
logged. -/
def updateProject (remoteOk : Bool) (projectId : String) (p : ProjectPatch) (w : World) : World × Nat :=
  match w.svc.supabase, w.svc.userContext with
  | true, some ctx =>
    if remoteOk then
      let rows := w.db.projects.map
        (fun r => if r.id == projectId && r.user_id == ctx.userId then applyProjectPatch p r else r)
      ({ w with db := { w.db with projects := rows } }, 1)
    else (w, 1)
  | _, _ => (w, 0)

/-- deleteProject: a soft delete, an update setting status to deleted on
the owner-scoped row; the row is not removed. -/
def deleteProject (remoteOk : Bool) (projectId : String) (w : World) : World × Nat :=
  match w.svc.supabase, w.svc.userContext with
  | true, some ctx =>
    if remoteOk then
      let rows := w.db.projects.map
        (fun r => if r.id == projectId && r.user_id == ctx.userId then { r with status := "deleted" } else r)
      ({ w with db := { w.db with projects := rows } }, 1)
    else (w, 1)
  | _, _ => (w, 0)

/-- getDesignFiles: owner- and project-scoped; empty on absence or
error. -/
def getDesignFiles (remoteOk : Bool) (projectId : String) (w : World) : List DesignFile :=
  match w.svc.supabase, w.svc.userContext with
  | true, some ctx =>
    if remoteOk then
      (w.db.design_files.filter
        (fun r => r.project_id == projectId && r.user_id == ctx.userId)).map
        (fun r => { id := some r.id, projectId := r.project_id, filePath := r.file_path
                  , fileType := r.file_type, content := r.content
                  , fileSize := some r.file_size, lastModified := some r.last_modified })
    else []
  | _, _ => []

/-- deleteDesignFile: a hard delete, physically removing the matching
owner-scoped rows; errors are only logged. -/
def deleteDesignFile (remoteOk : Bool) (projectId : String) (filePath : String) (w : World) : World × Nat :=
  match w.svc.supabase, w.svc.userContext with
  | true, some ctx =>
    if remoteOk then
      let rows := w.db.design_files.filter
        (fun r => !(r.project_id == projectId && r.file_path == filePath && r.user_id == ctx.userId))
      ({ w with db := { w.db with design_files := rows } }, 1)
    else (w, 1)
  | _, _ => (w, 0)

/-- getProjectFiles: owner- and project-scoped and restricted to rows
whose deletion flag is unset; empty on absence or error. -/
def getProjectFiles (remoteOk : Bool) (projectId : String) (w : World) : List ProjectFile :=
  match w.svc.supabase, w.svc.userContext with
  | true, some ctx =>
    if remoteOk then
      (w.db.project_files.filter
        (fun r => r.project_id == projectId && r.user_id == ctx.userId && r.is_deleted == false)).map
        (fun r => { id := some r.id, projectId := r.project_id, filePath := r.file_path
                  , content := r.content, isBinary := some r.is_binary, mimeType := r.mime_type
                  , fileSize := some r.file_size, isDeleted := some r.is_deleted })
    else []
  | _, _ => []

/-- deleteProjectFile: a soft delete, an update setting the deletion flag
and stamp on the matching owner-scoped rows; the rows are not removed. -/
def deleteProjectFile (remoteOk : Bool) (projectId : String) (filePath : String) (w : World) : World × Nat :=
  match w.svc.supabase, w.svc.userContext with
  | true, some ctx =>
    if remoteOk then
      let rows := w.db.project_files.map
        (fun r =>
          if r.project_id == projectId && r.file_path == filePath && r.user_id == ctx.userId then
            { r with is_deleted := true, deleted_at := some w.clock }
          else r)
      ({ w with db := { w.db with project_files := rows } }, 1)
    else (w, 1)
  | _, _ => (w, 0)

/-- getUserSettings: the owner's singleton row mapped back to the payload
shape; absent context, a missing row or a remote error give none. -/
def getUserSettings (remoteOk : Bool) (w : World) : Option UserSettings :=
  match w.svc.supabase, w.svc.userContext with
  | true, some ctx =>
    if remoteOk then
      (w.db.user_settings.find? (fun r => r.user_id == ctx.userId)).map
        (fun r => { theme := r.theme, providerSettings := some r.provider_settings
                  , autoEnabledProviders := some r.auto_enabled_providers
                  , mcpSettings := some r.mcp_settings
                  , githubConnection := r.github_connection
                  , gitlabConnection := r.gitlab_connection
                  , vercelConnection := r.vercel_connection
                  , netlifyConnection := r.netlify_connection
                  , supabaseConnection := r.supabase_connection
                  , viewedFeatures := some r.viewed_features })
    else none
  | _, _ => none

/-- saveCanvasState: an update of the owner-scoped projects row; errors
are only logged. -/
def saveCanvasState (remoteOk : Bool) (projectId : String) (canvasState : String) (w : World) : World × Nat :=
  match w.svc.supabase, w.svc.userContext with
  | true, some ctx =>
    if remoteOk then
      let rows := w.db.projects.map
        (fun r => if r.id == projectId && r.user_id == ctx.userId then { r with canvas_state := some canvasState } else r)
      ({ w with db := { w.db with projects := rows } }, 1)
    else (w, 1)
  | _, _ => (w, 0)

/-- getCanvasState: the owner-scoped row's canvas column; none on
absence, a missing row or an error. -/
def getCanvasState (remoteOk : Bool) (projectId : String) (w : World) : Option String :=
  match w.svc.supabase, w.svc.userContext with
  | true, some ctx =>
    if remoteOk then
      match w.db.projects.find? (fun r => r.id == projectId && r.user_id == ctx.userId) with
      | some r => r.canvas_state
      | none => none
    else none
  | _, _ => none

/-- createCanvasSnapshot: append-only insert with a defaulted name;
errors are only logged. -/
def createCanvasSnapshot (remoteOk : Bool) (projectId : String) (canvasState : String)
    (snapName : Option String) (w : World) : World × Nat :=
  match w.svc.supabase, w.svc.userContext with
  | true, some ctx =>
    if remoteOk then
      let rows := w.db.canvas_snapshots ++
        [{ project_id := projectId, user_id := ctx.userId, canvas_state := canvasState
         , name := snapName.getD ("Snapshot " ++ toString w.clock) }]
      ({ w with db := { w.db with canvas_snapshots := rows } }, 1)
    else (w, 1)
  | _, _ => (w, 0)

/-- The users-table read ensureUser starts with (select by clerk id,
single row). -/
def usersFind (clerkUserId : String) (db : RemoteDB) : Option UserRow :=
  db.users.find? (fun u => u.clerk_user_id == clerkUserId)

/-- The last-login touch ensureUser performs on an existing user. -/
def usersTouchLogin (clerkUserId : String) (clock : Nat) (db : RemoteDB) : RemoteDB :=
  let rows := db.users.map
    (fun u => if u.clerk_user_id == clerkUserId then { u with last_login_at := clock } else u)
  { db with users := rows }

/-- The plain insert (no conflict clause) ensureUser performs when the
read found nothing. -/
def usersInsert (row : UserRow) (db : RemoteDB) : RemoteDB :=
  { db with users := db.users ++ [row] }

/-- The continuation of ensureUser after its read: an existing row gets a
last-login update and its id is returned; an absent row leads to a plain
insert of a fresh row whose database-generated id is the newId
parameter. -/
def ensureUserContinue (clerkUserId : String) (email : String) (fullName : Option String)
    (newId : String) (clock : Nat) (readResult : Option UserRow) (db : RemoteDB) : RemoteDB × String :=
  match readResult with
  | some u => (usersTouchLogin clerkUserId clock db, u.id)
  | none => (usersInsert { id := newId, clerk_user_id := clerkUserId, email := email
                         , full_name := fullName, last_login_at := clock } db, newId)

/-- ensureUser: throws when the store handle is absent; otherwise a read
by clerk id followed by the continuation above — a check-then-insert pair
of calls, not a single upsert. -/
def ensureUser (clerkUserId : String) (email : String) (fullName : Option String)
    (newId : String) (w : World) : Except String (World × String) :=
  if w.svc.supabase = false then
    .error "Supabase not initialized"
  else
    let r := ensureUserContinue clerkUserId email fullName newId w.clock
      (usersFind clerkUserId w.db) w.db
    .ok ({ w with db := r.1 }, r.2)

/-- Two ensureUser calls for the same clerk id racing on first sight:
both reads happen before either continuation runs (the race window of the
check-then-insert pattern). Returns the final store and both returned
ids. -/
def ensureUserRace (clerkUserId : String) (emailA emailB : String) (idA idB : String)
    (clock : Nat) (db : RemoteDB) : RemoteDB × String × String :=
  let readA := usersFind clerkUserId db
  let readB := usersFind clerkUserId db
  let ra := ensureUserContinue clerkUserId emailA none idA clock readA db
  let rb := ensureUserContinue clerkUserId emailB none idB clock readB ra.1
  (rb.1, ra.2, rb.2)

/-- Dispatch of one queued operation during the drain loop: the drain
calls the same public save operation, whose own error path re-queues. -/
def dispatchQueued (okd : SaveOp → Bool) (q : QueuedOp) (w : World) : World × Nat :=
  match q.op with
  | .saveChatMessage m => saveChatMessage (okd q.op) m w
  | .saveDesignFile f => saveDesignFile (okd q.op) f w
  | .saveProjectFile f => saveProjectFile (okd q.op) f w

/-- One iteration of the drain loop body, accumulating the attempted
remote-call count. -/
def drainStep (okd : SaveOp → Bool) (acc : World × Nat) (q : QueuedOp) : World × Nat :=
  let s := dispatchQueued okd q acc.1
  (s.1, acc.2 + s.2)

/-- processOfflineQueue: returns untouched when offline or when the store
handle or user context is absent; otherwise snapshots the queue, clears
it, dispatches every captured operation in order, and persists the
resulting queue. The okd oracle gives each dispatched operation's remote
outcome; the Nat counts attempted remote calls. -/
def processOfflineQueue (okd : SaveOp → Bool) (w : World) : World × Nat :=
  if !w.svc.isOnline || !w.svc.supabase || w.svc.userContext.isNone then
    (w, 0)
  else
    let captured := w.svc.offlineQueue
    let start : World × Nat := ({ w with svc := { w.svc with offlineQueue := [] } }, 0)
    let r := captured.foldl (drainStep okd) start
    ({ r.1 with storage := some r.1.svc.offlineQueue }, r.2)

/-- handleOnline: flips the connectivity flag and drains. -/
def handleOnline (okd : SaveOp → Bool) (w : World) : World × Nat :=
  processOfflineQueue okd { w with svc := { w.svc with isOnline := true } }

/-- handleOffline: flips the connectivity flag; nothing else. -/
def handleOffline (w : World) : World :=
  { w with svc := { w.svc with isOnline := false } }

/-- The snapshot getSyncStatus returns. -/
structure SyncStatus where
  online : Bool
  queuedOperations : Nat
  authenticated : Bool
deriving DecidableEq

/-- getSyncStatus: recomputed from the connectivity flag, the live queue
length and the presence of the user context. -/
def getSyncStatus (w : World) : SyncStatus :=
  { online := w.svc.isOnline
  , queuedOperations := w.svc.offlineQueue.length
  , authenticated := w.svc.userContext.isSome }

/-- The full operation surface of the service, used to state queue
invariants over every operation uniformly. -/
inductive ApiOp where
  | setUserContext (ctx : UserContext)
  | ensureUser (clerkUserId email : String) (fullName : Option String) (newId : String)
  | saveChatMessage (remoteOk : Bool) (m : ChatMessage)
  | getChatHistory (remoteOk : Bool) (projectId : String)
  | deleteChatHistory (remoteOk : Bool) (projectId : String)
  | createProject (remoteOk : Bool) (newId projName : String) (descr : Option String)
  | getProjects (remoteOk : Bool)
  | updateProject (remoteOk : Bool) (projectId : String) (p : ProjectPatch)
  | deleteProject (remoteOk : Bool) (projectId : String)
  | saveDesignFile (remoteOk : Bool) (f : DesignFile)
  | getDesignFiles (remoteOk : Bool) (projectId : String)
  | deleteDesignFile (remoteOk : Bool) (projectId filePath : String)
  | saveProjectFile (remoteOk : Bool) (f : ProjectFile)
  | getProjectFiles (remoteOk : Bool) (projectId : String)
  | deleteProjectFile (remoteOk : Bool) (projectId filePath : String)
  | saveUserSettings (remoteOk : Bool) (s : UserSettings)
  | getUserSettings (remoteOk : Bool)
  | saveCanvasState (remoteOk : Bool) (projectId canvasState : String)
  | getCanvasState (remoteOk : Bool) (projectId : String)
  | createCanvasSnapshot (remoteOk : Bool) (projectId canvasState : String) (snapName : Option String)
  | processOfflineQueue (okd : SaveOp → Bool)
  | handleOnline (okd : SaveOp → Bool)
  | handleOffline
  | getSyncStatus

/-- The state effect of each operation; reads return values elsewhere and
leave the world untouched, and a throwing ensureUser or createProject
leaves the world untouched. -/
def runApi (op : ApiOp) (w : World) : World :=
  match op with
  | .setUserContext ctx => setUserContext ctx w
  | .ensureUser c e f nid =>
    match ensureUser c e f nid w with
    | .ok r => r.1
    | .error _ => w
  | .saveChatMessage ok m => (saveChatMessage ok m w).1
  | .getChatHistory _ _ => w
  | .deleteChatHistory ok pid => (deleteChatHistory ok pid w).1
  | .createProject ok nid nm d =>
    match createProject ok nid nm d w with
    | .ok r => r.1
    | .error _ => w
  | .getProjects _ => w
  | .updateProject ok pid p => (updateProject ok pid p w).1
  | .deleteProject ok pid => (deleteProject ok pid w).1
  | .saveDesignFile ok f => (saveDesignFile ok f w).1
  | .getDesignFiles _ _ => w
  | .deleteDesignFile ok pid fp => (deleteDesignFile ok pid fp w).1
  | .saveProjectFile ok f => (saveProjectFile ok f w).1
  | .getProjectFiles _ _ => w
  | .deleteProjectFile ok pid fp => (deleteProjectFile ok pid fp w).1
  | .saveUserSettings ok s => (saveUserSettings ok s w).1
  | .getUserSettings _ => w
  | .saveCanvasState ok pid cs => (saveCanvasState ok pid cs w).1
  | .getCanvasState _ _ => w
  | .createCanvasSnapshot ok pid cs nm => (createCanvasSnapshot ok pid cs nm w).1
  | .processOfflineQueue okd => (processOfflineQueue okd w).1
  | .handleOnline okd => (handleOnline okd w).1
  | .handleOffline => handleOffline w
  | .getSyncStatus => w

/-- Whether an ApiOp is one of the three save operations that can
enqueue. -/
def ApiOp.isQueueingSave : ApiOp → Bool
  | .saveChatMessage _ _ => true
  | .saveDesignFile _ _ => true
  | .saveProjectFile _ _ => true
  | _ => false

/-- A concrete identity context used by witnesses. -/
def ctx1 : UserContext := { userId := "u1", clerkUserId := "clerk1" }

/-- A concrete chat message used by witnesses. -/
def msgM1 : ChatMessage := { id := some "m1", projectId := "p1", role := "user", content := "hi" }

/-- A concrete design file used by witnesses. -/
def df1 : DesignFile := { projectId := "p1", filePath := "index.html", fileType := "html", content := "A" }

/-- A concrete project file used by witnesses. -/
def pf1 : ProjectFile := { projectId := "p1", filePath := "app.ts", content := "x" }

/-- A concrete settings payload used by witnesses. -/
def settings1 : UserSettings := { theme := some "dark" }

/-- A world with store handle and context present, online, empty queue. -/
def wReady : World :=
  { svc := { supabase := true, userContext := some ctx1, isOnline := true, offlineQueue := [] }
  , db := {}, storage := none, clock := 7 }

/-- A world whose identity context is unresolved. -/
def wNoCtx : World :=
  { svc := { supabase := true, userContext := none, isOnline := true, offlineQueue := [] }
  , db := {}, storage := none, clock := 7 }

/-- A world with store handle and context present but offline. -/
def wOffline : World :=
  { svc := { supabase := true, userContext := some ctx1, isOnline := false, offlineQueue := [] }
  , db := {}, storage := none, clock := 7 }

/-- An offline world with one queued operation. -/
def wOfflineQ : World :=
  { svc := { supabase := true, userContext := some ctx1, isOnline := false
           , offlineQueue := [⟨.saveChatMessage msgM1, 3⟩] }
  , db := {}, storage := none, clock := 7 }

/-- A remote outcome oracle that fails design-file writes only. -/
def okdFailDesign : SaveOp → Bool
  | .saveDesignFile _ => false
  | _ => true

/-- An online ready world with two queued operations: a design file
first, then a chat message. -/
def wDrain : World :=
  { svc := { supabase := true, userContext := some ctx1, isOnline := true
           , offlineQueue := [⟨.saveDesignFile df1, 3⟩, ⟨.saveChatMessage msgM1, 4⟩] }
  , db := {}, storage := none, clock := 7 }

/-- A ready world with three project rows: two owned by ctx1 (one
deleted), one owned by another identity. -/
def wProj : World :=
  { svc := { supabase := true, userContext := some ctx1, isOnline := true, offlineQueue := [] }
  , db := { projects :=
      [ { id := "pA", user_id := "u1", name := "A", description := none
        , status := "active", canvas_state := none, updated_at := 5 }
      , { id := "pB", user_id := "u1", name := "B", description := none
        , status := "deleted", canvas_state := none, updated_at := 9 }
      , { id := "pC", user_id := "u2", name := "C", description := none
        , status := "active", canvas_state := none, updated_at := 8 } ] }
  , storage := none, clock := 7 }

/-- A ready world holding one project row, one design-file row and two
project-file rows, all owned by ctx1. -/
def wC8 : World :=
  { svc := { supabase := true, userContext := some ctx1, isOnline := true, offlineQueue := [] }
  , db :=
      { projects :=
          [ { id := "p1", user_id := "u1", name := "A", description := none
            , status := "active", canvas_state := none, updated_at := 5 } ]
      , design_files :=
          [ { id := "d1", project_id := "p1", user_id := "u1", file_path := "index.html"
            , file_type := "html", content := "A", file_size := 1, last_modified := 2 } ]
      , project_files :=
          [ { id := "f1", project_id := "p1", user_id := "u1", file_path := "app.ts"
            , content := "x", is_binary := false, mime_type := none, file_size := 1
            , is_deleted := false, deleted_at := none }
          , { id := "f2", project_id := "p1", user_id := "u1", file_path := "other.ts"
            , content := "y", is_binary := false, mime_type := none, file_size := 1
            , is_deleted := false, deleted_at := none } ] }
  , storage := none, clock := 7 }

/-- C9: getSyncStatus returns a snapshot whose online field equals the
connectivity flag, whose queuedOperations field equals the current queue
length and whose authenticated field equals the presence of the identity
context — recomputed from current state, so flipping the flag, setting
the context or appending to the queue is immediately reflected. -/
theorem C9_getSyncStatus_derived :
    (∀ w : World, getSyncStatus w =
      { online := w.svc.isOnline
      , queuedOperations := w.svc.offlineQueue.length
      , authenticated := w.svc.userContext.isSome })
    ∧ (∀ (w : World) (ctx : UserContext), getSyncStatus (setUserContext ctx w) =
        { online := w.svc.isOnline
        , queuedOperations := w.svc.offlineQueue.length
        , authenticated := true })
    ∧ (∀ w : World, getSyncStatus (handleOffline w) =
        { online := false
        , queuedOperations := w.svc.offlineQueue.length
        , authenticated := w.svc.userContext.isSome })
    ∧ (∀ (w : World) (op : SaveOp), getSyncStatus (queueOperation op w) =
        { online := w.svc.isOnline
        , queuedOperations := w.svc.offlineQueue.length + 1
        , authenticated := w.svc.userContext.isSome }) := by
  refine ⟨fun w => rfl, fun w ctx => rfl, fun w => rfl, fun w op => ?_⟩
  simp [getSyncStatus, queueOperation]

/-- C10: when the connectivity flag is off, the store handle is absent or
the identity context is unresolved, processOfflineQueue dispatches
nothing and returns the world — queue, store, local storage and all other
state — unchanged. -/
theorem C10_drain_noop (okd : SaveOp → Bool) (w : World)
    (h : w.svc.isOnline = false ∨ w.svc.supabase = false ∨ w.svc.userContext = none) :
    processOfflineQueue okd w = (w, 0) := by
  unfold processOfflineQueue
  rcases h with h | h | h <;> simp [h]

/-- Witness for C10 at an offline world with one queued operation. -/
theorem C10_drain_noop_witness :
    wOfflineQ.svc.isOnline = false
    ∧ processOfflineQueue (fun _ => true) wOfflineQ = (wOfflineQ, 0) :=
  ⟨rfl, C10_drain_noop (fun _ => true) wOfflineQ (Or.inl rfl)⟩

/-- C1 counterexample: saveUserSettings does not queue. With the identity
context unresolved it returns leaving the queue empty, and with the
context present a remote error is swallowed without queueing — contrary
to the claim that every save operation queues in these situations. -/
theorem C1_saveUserSettings_never_queues :
    ¬ ((saveUserSettings true settings1 wNoCtx).1.svc.offlineQueue.length = 1)
    ∧ ¬ ((saveUserSettings false settings1 wReady).1.svc.offlineQueue.length = 1) := by
  decide

/-- C1 (amended): saveChatMessage, saveDesignFile and saveProjectFile
queue the payload and return without error when the store handle or the
identity context is absent (with no remote call attempted), and queue
rather than surface a remote error during an attempted write;
saveUserSettings instead returns without error and without queueing in
both situations. -/
theorem C1_save_queueing (w : World) (rok : Bool) (m : ChatMessage) (f : DesignFile)
    (pf : ProjectFile) (s : UserSettings) :
    (w.svc.supabase = false ∨ w.svc.userContext = none →
        (saveChatMessage rok m w).1.svc.offlineQueue
          = w.svc.offlineQueue ++ [⟨.saveChatMessage m, w.clock⟩]
      ∧ (saveDesignFile rok f w).1.svc.offlineQueue
          = w.svc.offlineQueue ++ [⟨.saveDesignFile f, w.clock⟩]
      ∧ (saveProjectFile rok pf w).1.svc.offlineQueue
          = w.svc.offlineQueue ++ [⟨.saveProjectFile pf, w.clock⟩]
      ∧ (saveChatMessage rok m w).2 = 0
      ∧ (saveUserSettings rok s w).1 = w)
    ∧ (∀ u, w.svc.supabase = true → w.svc.userContext = some u →
        (saveChatMessage false m w).1.svc.offlineQueue
          = w.svc.offlineQueue ++ [⟨.saveChatMessage m, w.clock⟩]
      ∧ (saveChatMessage false m w).1.db = w.db
      ∧ (saveDesignFile false f w).1.svc.offlineQueue
          = w.svc.offlineQueue ++ [⟨.saveDesignFile f, w.clock⟩]
      ∧ (saveProjectFile false pf w).1.svc.offlineQueue
          = w.svc.offlineQueue ++ [⟨.saveProjectFile pf, w.clock⟩]
      ∧ (saveUserSettings false s w).1 = w) := by
  obtain ⟨⟨sb, uc, onl, q⟩, db, st, ck⟩ := w
  constructor
  · rintro (h | h)
    · simp only at h
      subst h
      cases uc <;>
        simp [saveChatMessage, saveDesignFile, saveProjectFile, saveUserSettings, queueOperation]
    · simp only at h
      subst h
      cases sb <;>
        simp [saveChatMessage, saveDesignFile, saveProjectFile, saveUserSettings, queueOperation]
  · rintro u h1 h2
    simp only at h1 h2
    subst h1
    subst h2
    simp [saveChatMessage, saveDesignFile, saveProjectFile, saveUserSettings, queueOperation]

/-- Witness for C1 at a context-absent world and at a ready world with a
failing remote call. -/
theorem C1_save_queueing_witness :
    wNoCtx.svc.userContext = none
    ∧ (saveChatMessage true msgM1 wNoCtx).1.svc.offlineQueue
        = wNoCtx.svc.offlineQueue ++ [⟨.saveChatMessage msgM1, wNoCtx.clock⟩]
    ∧ (saveUserSettings true settings1 wNoCtx).1 = wNoCtx
    ∧ (saveChatMessage false msgM1 wReady).1.svc.offlineQueue
        = wReady.svc.offlineQueue ++ [⟨.saveChatMessage msgM1, wReady.clock⟩] :=
  ⟨rfl,
   ((C1_save_queueing wNoCtx true msgM1 df1 pf1 settings1).1 (Or.inr rfl)).1,
   ((C1_save_queueing wNoCtx true msgM1 df1 pf1 settings1).1 (Or.inr rfl)).2.2.2.2,
   ((C1_save_queueing wReady false msgM1 df1 pf1 settings1).2 ctx1 rfl rfl).1⟩

/-- C2 (code-bug evaluation): the queue is persisted to local storage on
every mutation, but the constructor never reads it back. After queueing
one operation the persisted copy holds it, yet a freshly constructed
service instance in the same client starts with an empty live queue. -/
theorem C2_restart_loses_live_queue :
    (saveChatMessage true msgM1 wNoCtx).1.storage
      = some [⟨.saveChatMessage msgM1, wNoCtx.clock⟩]
    ∧ (restartClient true true (saveChatMessage true msgM1 wNoCtx).1).svc.offlineQueue = []
    ∧ (restartClient true true (saveChatMessage true msgM1 wNoCtx).1).storage
      = some [⟨.saveChatMessage msgM1, wNoCtx.clock⟩] := by
  refine ⟨rfl, rfl, rfl⟩

/-- C3 counterexample: with the store handle and identity context present
but the client offline, saveChatMessage still attempts one remote call
(the code never consults the connectivity flag on the save path) — the
claim that no remote call is attempted is false. The attempted call fails
while offline, which is the false outcome parameter. -/
theorem C3_offline_save_attempts_remote :
    (saveChatMessage false msgM1 wOffline).2 = 1
    ∧ ¬ ((saveChatMessage false msgM1 wOffline).2 = 0) := by
  decide

/-- C3 (amended): offline with context and store present, saveChatMessage
attempts one remote call, which fails, and queues the message, making the
queue length 1 with the remote store untouched; after the transition to
online the queue drains, the queue length becomes 0 and the remote store
contains exactly one row with id m1. -/
theorem C3_offline_save_then_online_drain :
    (saveChatMessage false msgM1 wOffline).2 = 1
    ∧ (saveChatMessage false msgM1 wOffline).1.svc.offlineQueue.length = 1
    ∧ (saveChatMessage false msgM1 wOffline).1.db.chat_history = []
    ∧ (handleOnline (fun _ => true) (saveChatMessage false msgM1 wOffline).1).1.svc.offlineQueue.length = 0
    ∧ (handleOnline (fun _ => true) (saveChatMessage false msgM1 wOffline).1).1.db.chat_history.map
        (fun r => r.id) = ["m1"] := by
  decide

/-- C4 counterexample: two first-sight ensureUser invocations for the
same external id whose reads both happen inside the race window of the
check-then-insert pattern leave two identity rows for that external id
and return different internal ids — the operation is not a single atomic
upsert and concurrent first-sight calls do not converge. -/
theorem C4_ensureUser_race_duplicates :
    (ensureUserRace "clerk1" "a@x" "b@x" "idA" "idB" 0 {}).1.users.length = 2
    ∧ (ensureUserRace "clerk1" "a@x" "b@x" "idA" "idB" 0 {}).1.users.map
        (fun u => u.clerk_user_id) = ["clerk1", "clerk1"]
    ∧ ¬ ((ensureUserRace "clerk1" "a@x" "b@x" "idA" "idB" 0 {}).2.1
        = (ensureUserRace "clerk1" "a@x" "b@x" "idA" "idB" 0 {}).2.2) := by
  decide

/-- C4 (amended): ensureUser is a separate read followed by a plain
insert. Invocations that run strictly sequentially converge: a
first-sight call inserts exactly one row and returns its id, and a
subsequent call for the same external id finds that row and returns the
same internal id without inserting; but because the read and the insert
are separate calls, interleaved first-sight invocations can insert
duplicate rows (see the counterexample). -/
theorem C4_ensureUser_sequential (w : World) (c e1 e2 id1 id2 : String)
    (hs : w.svc.supabase = true) (hnone : usersFind c w.db = none) :
    ∃ w1 w2,
      ensureUser c e1 none id1 w = .ok (w1, id1)
      ∧ w1.db.users.length = w.db.users.length + 1
      ∧ ensureUser c e2 none id2 w1 = .ok (w2, id1)
      ∧ w2.db.users.length = w1.db.users.length := by
  have hfind1 : usersFind c (usersInsert ⟨id1, c, e1, none, w.clock⟩ w.db)
      = some ⟨id1, c, e1, none, w.clock⟩ := by
    unfold usersFind at hnone
    unfold usersFind usersInsert
    rw [List.find?_append, hnone]
    simp
  refine ⟨{ w with db := usersInsert ⟨id1, c, e1, none, w.clock⟩ w.db },
          { w with db := usersTouchLogin c w.clock (usersInsert ⟨id1, c, e1, none, w.clock⟩ w.db) },
          ?_, ?_, ?_, ?_⟩
  · simp [ensureUser, hs, hnone, ensureUserContinue]
  · simp [usersInsert]
  · simp [ensureUser, hs, hfind1, ensureUserContinue]
  · simp [usersTouchLogin, usersInsert]

/-- Witness for C4 at a ready world with an empty users table. -/
theorem C4_ensureUser_sequential_witness :
    wReady.svc.supabase = true
    ∧ usersFind "clerk1" wReady.db = none
    ∧ (∃ w1 w2,
        ensureUser "clerk1" "a@x" none "idA" wReady = .ok (w1, "idA")
        ∧ w1.db.users.length = wReady.db.users.length + 1
        ∧ ensureUser "clerk1" "b@x" none "idB" w1 = .ok (w2, "idA")
        ∧ w2.db.users.length = w1.db.users.length) :=
  ⟨rfl, rfl, C4_ensureUser_sequential wReady "clerk1" "a@x" "b@x" "idA" "idB" rfl rfl⟩

/-- One drain dispatch in a ready world: a successful remote call applies
the save upsert, a failed one re-queues the payload (re-captured at the
current clock); one remote call is attempted either way. -/
theorem dispatchQueued_ready (okd : SaveOp → Bool) (q : QueuedOp) (w : World) (u : UserContext)
    (hs : w.svc.supabase = true) (hc : w.svc.userContext = some u) :
    dispatchQueued okd q w =
      (if okd q.op then ({ w with db := applySave u.userId w.clock q.op w.db }, 1)
       else (queueOperation q.op w, 1)) := by
  obtain ⟨⟨sb, uc, onl, qs⟩, db, st, ck⟩ := w
  simp only at hs hc
  subst hs
  subst hc
  obtain ⟨op, ts⟩ := q
  cases op <;>
    simp [dispatchQueued, saveChatMessage, saveDesignFile, saveProjectFile]

/-- The drain fold over a ready world: failed operations are appended in
order behind the starting queue, successful upserts are applied in the
captured order, the flags and the clock are preserved and one remote call
is attempted per captured operation. -/
theorem drainFold_char (okd : SaveOp → Bool) (u : UserContext) :
    ∀ (l : List QueuedOp) (w : World) (n : Nat),
      w.svc.supabase = true → w.svc.userContext = some u →
      (l.foldl (drainStep okd) (w, n)).1.svc.offlineQueue
          = w.svc.offlineQueue ++ (l.filter (fun q => !(okd q.op))).map (fun q => ⟨q.op, w.clock⟩)
      ∧ (l.foldl (drainStep okd) (w, n)).1.db
          = (l.filter (fun q => okd q.op)).foldl
              (fun db q => applySave u.userId w.clock q.op db) w.db
      ∧ (l.foldl (drainStep okd) (w, n)).1.svc.supabase = true
      ∧ (l.foldl (drainStep okd) (w, n)).1.svc.userContext = some u
      ∧ (l.foldl (drainStep okd) (w, n)).1.svc.isOnline = w.svc.isOnline
      ∧ (l.foldl (drainStep okd) (w, n)).1.clock = w.clock
      ∧ (l.foldl (drainStep okd) (w, n)).2 = n + l.length := by
  intro l
  induction l with
  | nil =>
    intro w n hs hc
    exact ⟨by simp, by simp, hs, hc, rfl, rfl, rfl⟩
  | cons q l ih =>
    intro w n hs hc
    have hstep := dispatchQueued_ready okd q w u hs hc
    by_cases hok : okd q.op
    · have hd : drainStep okd (w, n) q
          = ({ w with db := applySave u.userId w.clock q.op w.db }, n + 1) := by
        simp [drainStep, hstep, hok]
      obtain ⟨ih1, ih2, ih3, ih4, ih5, ih6, ih7⟩ :=
        ih { w with db := applySave u.userId w.clock q.op w.db } (n + 1) hs hc
      rw [List.foldl_cons, hd]
      refine ⟨?_, ?_, ih3, ih4, ih5, ih6, ?_⟩
      · rw [ih1]
        simp [List.filter_cons, hok]
      · rw [ih2]
        simp [List.filter_cons, hok]
      · rw [ih7]
        simp [Nat.add_assoc, Nat.add_comm 1 l.length]
    · have hd : drainStep okd (w, n) q = (queueOperation q.op w, n + 1) := by
        simp [drainStep, hstep, hok]
      obtain ⟨ih1, ih2, ih3, ih4, ih5, ih6, ih7⟩ :=
        ih (queueOperation q.op w) (n + 1) hs hc
      rw [List.foldl_cons, hd]
      refine ⟨?_, ?_, ih3, ih4, ih5, ih6, ?_⟩
      · rw [ih1]
        simp [queueOperation, List.filter_cons, hok]
      · rw [ih2]
        simp [queueOperation, List.filter_cons, hok]
      · rw [ih7]
        simp [Nat.add_assoc, Nat.add_comm 1 l.length]

/-- C5: in a ready online world, processOfflineQueue snapshots the queue,
clears it, attempts each captured operation in its original order, and
re-appends exactly the failed ones (in order, re-captured at the current
clock) while the successful upserts land in the store in their original
relative order — so a failed early operation remains queued while later
ones succeed, and the resulting queue is persisted. -/
theorem C5_drain_characterization (okd : SaveOp → Bool) (w : World) (u : UserContext)
    (h1 : w.svc.isOnline = true) (h2 : w.svc.supabase = true)
    (h3 : w.svc.userContext = some u) :
    (processOfflineQueue okd w).1.svc.offlineQueue
        = (w.svc.offlineQueue.filter (fun q => !(okd q.op))).map (fun q => ⟨q.op, w.clock⟩)
    ∧ (processOfflineQueue okd w).1.db
        = (w.svc.offlineQueue.filter (fun q => okd q.op)).foldl
            (fun db q => applySave u.userId w.clock q.op db) w.db
    ∧ (processOfflineQueue okd w).1.storage
        = some ((w.svc.offlineQueue.filter (fun q => !(okd q.op))).map (fun q => ⟨q.op, w.clock⟩)) := by
  have hcond : (!w.svc.isOnline || !w.svc.supabase || w.svc.userContext.isNone) = false := by
    rw [h1, h2, h3]
    rfl
  obtain ⟨c1, c2, c3, c4, c5, c6, c7⟩ :=
    drainFold_char okd u w.svc.offlineQueue
      { w with svc := { w.svc with offlineQueue := [] } } 0 h2 h3
  unfold processOfflineQueue
  simp only [hcond, Bool.false_eq_true, if_false]
  refine ⟨?_, ?_, ?_⟩
  · rw [c1]; simp
  · rw [c2]
  · rw [c1]; simp

/-- Witness for C5 at a two-element queue whose first (design-file)
dispatch fails and whose second (chat) dispatch succeeds. -/
theorem C5_drain_characterization_witness :
    wDrain.svc.isOnline = true ∧ wDrain.svc.supabase = true
    ∧ wDrain.svc.userContext = some ctx1
    ∧ (processOfflineQueue okdFailDesign wDrain).1.svc.offlineQueue
        = (wDrain.svc.offlineQueue.filter (fun q => !(okdFailDesign q.op))).map
            (fun q => ⟨q.op, wDrain.clock⟩)
    ∧ (processOfflineQueue okdFailDesign wDrain).1.db
        = (wDrain.svc.offlineQueue.filter (fun q => okdFailDesign q.op)).foldl
            (fun db q => applySave ctx1.userId wDrain.clock q.op db) wDrain.db :=
  ⟨rfl, rfl, rfl,
   (C5_drain_characterization okdFailDesign wDrain ctx1 rfl rfl rfl).1,
   (C5_drain_characterization okdFailDesign wDrain ctx1 rfl rfl rfl).2.1⟩

/-- Draining never grows the queue: the result holds at most the captured
operations that failed. -/
theorem drain_queue_length_le (okd : SaveOp → Bool) (w : World) :
    (processOfflineQueue okd w).1.svc.offlineQueue.length ≤ w.svc.offlineQueue.length := by
  cases ho : w.svc.isOnline with
  | false =>
    unfold processOfflineQueue
    simp [ho]
  | true =>
    cases hsb : w.svc.supabase with
    | false =>
      unfold processOfflineQueue
      simp [hsb]
    | true =>
      cases hc : w.svc.userContext with
      | none =>
        unfold processOfflineQueue
        simp [hc]
      | some u =>
        have hcond : (!w.svc.isOnline || !w.svc.supabase || w.svc.userContext.isNone) = false := by
          rw [ho, hsb, hc]
          rfl
        obtain ⟨c1, _, _, _, _, _, _⟩ :=
          drainFold_char okd u w.svc.offlineQueue
            { w with svc := { w.svc with offlineQueue := [] } } 0 hsb hc
        unfold processOfflineQueue
        simp only [hcond, Bool.false_eq_true, if_false]
        rw [c1]
        simp only [List.nil_append, List.length_map]
        calc ((List.filter (fun q => !okd q.op) w.svc.offlineQueue)).length
            ≤ w.svc.offlineQueue.length := List.length_filter_le _ _
        -- the starting queue of the fold is empty, so only failures remain

/-- C6: the queue never contains read operations. Over the whole
operation surface, only the three queue-capable save operations can grow
the queue (the getters leave the world untouched); and every getter
called with the store handle or the identity context absent, or hitting a
remote error, returns its empty result immediately — being total Lean
functions, they throw nothing. -/
theorem C6_reads_never_queue (w : World) :
    (∀ op : ApiOp, w.svc.offlineQueue.length < (runApi op w).svc.offlineQueue.length →
        op.isQueueingSave = true)
    ∧ (∀ (rok : Bool) (pid : String), w.svc.supabase = false ∨ w.svc.userContext = none →
        getChatHistory rok pid w = [] ∧ getDesignFiles rok pid w = []
        ∧ getProjectFiles rok pid w = [] ∧ getProjects rok w = []
        ∧ getUserSettings rok w = none ∧ getCanvasState rok pid w = none)
    ∧ (∀ pid : String,
        getChatHistory false pid w = [] ∧ getDesignFiles false pid w = []
        ∧ getProjectFiles false pid w = [] ∧ getProjects false w = []
        ∧ getUserSettings false w = none ∧ getCanvasState false pid w = none) := by
  refine ⟨?_, ?_, ?_⟩
  · intro op h
    cases op with
    | saveChatMessage rok m => rfl
    | saveDesignFile rok f => rfl
    | saveProjectFile rok f => rfl
    | setUserContext ctx => simp [runApi, setUserContext] at h
    | ensureUser c e f nid =>
      by_cases hsb : w.svc.supabase = false
      · simp [runApi, ensureUser, hsb] at h
      · simp [runApi, ensureUser, hsb] at h
    | getChatHistory rok pid => simp [runApi] at h
    | deleteChatHistory rok pid =>
      exfalso
      obtain ⟨⟨sb, uc, onl, q⟩, db, st, ck⟩ := w
      cases sb <;> cases uc <;> cases rok <;>
        simp [runApi, deleteChatHistory] at h
    | createProject rok nid nm d =>
      exfalso
      obtain ⟨⟨sb, uc, onl, q⟩, db, st, ck⟩ := w
      cases sb <;> cases uc <;> cases rok <;>
        simp [runApi, createProject] at h
    | getProjects rok => simp [runApi] at h
    | updateProject rok pid p =>
      exfalso
      obtain ⟨⟨sb, uc, onl, q⟩, db, st, ck⟩ := w
      cases sb <;> cases uc <;> cases rok <;>
        simp [runApi, updateProject] at h
    | deleteProject rok pid =>
      exfalso
      obtain ⟨⟨sb, uc, onl, q⟩, db, st, ck⟩ := w
      cases sb <;> cases uc <;> cases rok <;>
        simp [runApi, deleteProject] at h
    | getDesignFiles rok pid => simp [runApi] at h
    | deleteDesignFile rok pid fp =>
      exfalso
      obtain ⟨⟨sb, uc, onl, q⟩, db, st, ck⟩ := w
      cases sb <;> cases uc <;> cases rok <;>
        simp [runApi, deleteDesignFile] at h
    | getProjectFiles rok pid => simp [runApi] at h
    | deleteProjectFile rok pid fp =>
      exfalso
      obtain ⟨⟨sb, uc, onl, q⟩, db, st, ck⟩ := w
      cases sb <;> cases uc <;> cases rok <;>
        simp [runApi, deleteProjectFile] at h
    | saveUserSettings rok s =>
      exfalso
      obtain ⟨⟨sb, uc, onl, q⟩, db, st, ck⟩ := w
      cases sb <;> cases uc <;> cases rok <;>
        simp [runApi, saveUserSettings] at h
    | getUserSettings rok => simp [runApi] at h
    | saveCanvasState rok pid cs =>
      exfalso
      obtain ⟨⟨sb, uc, onl, q⟩, db, st, ck⟩ := w
      cases sb <;> cases uc <;> cases rok <;>
        simp [runApi, saveCanvasState] at h
    | getCanvasState rok pid => simp [runApi] at h
    | createCanvasSnapshot rok pid cs nm =>
      exfalso
      obtain ⟨⟨sb, uc, onl, q⟩, db, st, ck⟩ := w
      cases sb <;> cases uc <;> cases rok <;>
        simp [runApi, createCanvasSnapshot] at h
    | processOfflineQueue okd =>
      exact absurd h (not_lt.mpr (drain_queue_length_le okd w))
    | handleOnline okd =>
      have hle := drain_queue_length_le okd { w with svc := { w.svc with isOnline := true } }
      simp only [runApi, handleOnline] at h
      exact absurd h (not_lt.mpr hle)
    | handleOffline => simp [runApi, handleOffline] at h
    | getSyncStatus => simp [runApi] at h
  · rintro rok pid (h | h)
    · obtain ⟨⟨sb, uc, onl, q⟩, db, st, ck⟩ := w
      simp only at h
      subst h
      cases uc <;>
        simp [getChatHistory, getDesignFiles, getProjectFiles, getProjects,
          getUserSettings, getCanvasState]
    · obtain ⟨⟨sb, uc, onl, q⟩, db, st, ck⟩ := w
      simp only at h
      subst h
      cases sb <;>
        simp [getChatHistory, getDesignFiles, getProjectFiles, getProjects,
          getUserSettings, getCanvasState]
  · intro pid
    obtain ⟨⟨sb, uc, onl, q⟩, db, st, ck⟩ := w
    cases sb <;> cases uc <;>
      simp [getChatHistory, getDesignFiles, getProjectFiles, getProjects,
        getUserSettings, getCanvasState]

/-- Witness for C6: a queue-growing step is one of the save operations,
and each getter returns empty at a context-absent world and under a
remote error. -/
theorem C6_reads_never_queue_witness :
    (ApiOp.saveChatMessage true msgM1).isQueueingSave = true
    ∧ getChatHistory true "p1" wNoCtx = []
    ∧ getDesignFiles true "p1" wNoCtx = []
    ∧ getProjectFiles true "p1" wNoCtx = []
    ∧ getProjects true wNoCtx = []
    ∧ getUserSettings true wNoCtx = none
    ∧ getCanvasState true "p1" wNoCtx = none
    ∧ getChatHistory false "p1" wReady = [] :=
  ⟨(C6_reads_never_queue wNoCtx).1 (.saveChatMessage true msgM1) (by decide),
   ((C6_reads_never_queue wNoCtx).2.1 true "p1" (Or.inr rfl)).1,
   ((C6_reads_never_queue wNoCtx).2.1 true "p1" (Or.inr rfl)).2.1,
   ((C6_reads_never_queue wNoCtx).2.1 true "p1" (Or.inr rfl)).2.2.1,
   ((C6_reads_never_queue wNoCtx).2.1 true "p1" (Or.inr rfl)).2.2.2.1,
   ((C6_reads_never_queue wNoCtx).2.1 true "p1" (Or.inr rfl)).2.2.2.2.1,
   ((C6_reads_never_queue wNoCtx).2.1 true "p1" (Or.inr rfl)).2.2.2.2.2,
   ((C6_reads_never_queue wReady).2.2 "p1").1⟩

/-- C7: getProjects returns only rows owned by the current identity
context whose status is active, ordered by the update stamp descending
(most recently updated first), and never more than 50 rows. -/
theorem C7_getProjects_bounded (rok : Bool) (w : World) (u : UserContext)
    (hc : w.svc.userContext = some u) :
    (getProjects rok w).length ≤ 50
    ∧ (∀ r ∈ getProjects rok w, r.user_id = u.userId ∧ r.status = "active")
    ∧ (getProjects rok w).Pairwise (fun a b => b.updated_at ≤ a.updated_at) := by
  obtain ⟨⟨sb, uc, onl, q⟩, db, st, ck⟩ := w
  simp only at hc
  subst hc
  cases sb with
  | false => simp [getProjects]
  | true =>
    cases rok with
    | false => simp [getProjects]
    | true =>
      refine ⟨?_, ?_, ?_⟩
      · exact List.length_take_le _ _
      · intro r hr
        have hr2 : r ∈ (db.projects.filter
            (fun r => r.user_id == u.userId && r.status == "active")).mergeSort
            (fun a b => b.updated_at ≤ a.updated_at) :=
          (List.take_sublist _ _).subset hr
        rw [List.mem_mergeSort, List.mem_filter] at hr2
        have hp := hr2.2
        simp only [Bool.and_eq_true, beq_iff_eq] at hp
        exact hp
      · have htrans : ∀ a b c : ProjectRow,
            (decide (b.updated_at ≤ a.updated_at)) = true →
            (decide (c.updated_at ≤ b.updated_at)) = true →
            (decide (c.updated_at ≤ a.updated_at)) = true := by
          intro a b c h1 h2
          simp only [decide_eq_true_eq] at h1 h2 ⊢
          exact le_trans h2 h1
        have htotal : ∀ a b : ProjectRow,
            ((decide (b.updated_at ≤ a.updated_at)) || (decide (a.updated_at ≤ b.updated_at))) = true := by
          intro a b
          simp [Nat.le_total b.updated_at a.updated_at]
        have hsorted := List.sorted_mergeSort htrans htotal
          (db.projects.filter (fun r => r.user_id == u.userId && r.status == "active"))
        have hsorted2 := List.Pairwise.sublist (List.take_sublist 50 _) hsorted
        exact hsorted2.imp (fun h => of_decide_eq_true h)

/-- Witness for C7 at a world with mixed-owner, mixed-status rows. -/
theorem C7_getProjects_bounded_witness :
    wProj.svc.userContext = some ctx1
    ∧ (getProjects true wProj).length ≤ 50
    ∧ (∀ r ∈ getProjects true wProj, r.user_id = ctx1.userId ∧ r.status = "active")
    ∧ (getProjects true wProj).Pairwise (fun a b => b.updated_at ≤ a.updated_at) :=
  ⟨rfl,
   (C7_getProjects_bounded true wProj ctx1 rfl).1,
   (C7_getProjects_bounded true wProj ctx1 rfl).2.1,
   (C7_getProjects_bounded true wProj ctx1 rfl).2.2⟩

/-- C8: per-kind deletion asymmetry. deleteProjectFile soft-deletes: the
row count is unchanged, a matching row stays present with its deletion
flag set and the deletion stamp filled, and a subsequent getProjectFiles
call excludes it; deleteDesignFile physically removes the matching rows;
deleteProject soft-deletes by setting status to deleted with the row
count unchanged. -/
theorem C8_delete_asymmetry (w : World) (u : UserContext) (pid fp : String)
    (hs : w.svc.supabase = true) (hc : w.svc.userContext = some u) :
    (deleteProjectFile true pid fp w).1.db.project_files.length = w.db.project_files.length
    ∧ (∀ r ∈ w.db.project_files,
        r.project_id = pid → r.file_path = fp → r.user_id = u.userId →
          ({ r with is_deleted := true, deleted_at := some w.clock } : ProjectFileRow)
            ∈ (deleteProjectFile true pid fp w).1.db.project_files)
    ∧ (∀ f ∈ getProjectFiles true pid (deleteProjectFile true pid fp w).1, ¬ (f.filePath = fp))
    ∧ (deleteDesignFile true pid fp w).1.db.design_files
        = w.db.design_files.filter
            (fun r => !(r.project_id == pid && r.file_path == fp && r.user_id == u.userId))
    ∧ (deleteProject true pid w).1.db.projects.length = w.db.projects.length
    ∧ (∀ r ∈ w.db.projects, r.id = pid → r.user_id = u.userId →
        ({ r with status := "deleted" } : ProjectRow) ∈ (deleteProject true pid w).1.db.projects) := by
  obtain ⟨⟨sb, uc, onl, q⟩, db, st, ck⟩ := w
  simp only at hs hc
  subst hs
  subst hc
  have hdpf : (deleteProjectFile true pid fp ⟨⟨true, some u, onl, q⟩, db, st, ck⟩).1.db.project_files = db.project_files.map (fun r => if r.project_id == pid && r.file_path == fp && r.user_id == u.userId then { r with is_deleted := true, deleted_at := some ck } else r) := rfl
  have hgpf : getProjectFiles true pid (deleteProjectFile true pid fp ⟨⟨true, some u, onl, q⟩, db, st, ck⟩).1 = ((db.project_files.map (fun r => if r.project_id == pid && r.file_path == fp && r.user_id == u.userId then { r with is_deleted := true, deleted_at := some ck } else r)).filter (fun r => r.project_id == pid && r.user_id == u.userId && r.is_deleted == false)).map (fun r => { id := some r.id, projectId := r.project_id, filePath := r.file_path, content := r.content, isBinary := some r.is_binary, mimeType := r.mime_type, fileSize := some r.file_size, isDeleted := some r.is_deleted }) := rfl
  have hddf : (deleteDesignFile true pid fp ⟨⟨true, some u, onl, q⟩, db, st, ck⟩).1.db.design_files = db.design_files.filter (fun r => !(r.project_id == pid && r.file_path == fp && r.user_id == u.userId)) := rfl
  have hdp : (deleteProject true pid ⟨⟨true, some u, onl, q⟩, db, st, ck⟩).1.db.projects = db.projects.map (fun r => if r.id == pid && r.user_id == u.userId then { r with status := "deleted" } else r) := rfl
  refine ⟨?_, ?_, ?_, ?_, ?_, ?_⟩
  · rw [hdpf]
    simp
  · intro r hr h1 h2 h3
    rw [hdpf, List.mem_map]
    exact ⟨r, hr, by simp [h1, h2, h3]⟩
  · intro f hf hfp
    rw [hgpf] at hf
    obtain ⟨x, hx, hxf⟩ := List.mem_map.mp hf
    obtain ⟨hxmem, hpred⟩ := List.mem_filter.mp hx
    obtain ⟨r0, hr0, hxr⟩ := List.mem_map.mp hxmem
    simp only [Bool.and_eq_true, beq_iff_eq] at hpred
    have hxfp : x.file_path = fp := by
      rw [← hxf] at hfp
      exact hfp
    by_cases hcnd : (r0.project_id == pid && r0.file_path == fp && r0.user_id == u.userId) = true
    · rw [if_pos hcnd] at hxr
      have hdel := hpred.2
      rw [← hxr] at hdel
      simp at hdel
    · rw [if_neg hcnd] at hxr
      subst hxr
      apply hcnd
      simp only [Bool.and_eq_true, beq_iff_eq]
      exact ⟨⟨hpred.1.1, hxfp⟩, hpred.1.2⟩
  · exact hddf
  · rw [hdp]
    simp
  · intro r hr h1 h2
    rw [hdp, List.mem_map]
    exact ⟨r, hr, by simp [h1, h2]⟩

/-- Witness for C8 at a ready world with one design row and two project
files. -/
theorem C8_delete_asymmetry_witness :
    wC8.svc.supabase = true ∧ wC8.svc.userContext = some ctx1
    ∧ (deleteProjectFile true "p1" "app.ts" wC8).1.db.project_files.length
        = wC8.db.project_files.length
    ∧ (∀ f ∈ getProjectFiles true "p1" (deleteProjectFile true "p1" "app.ts" wC8).1,
        ¬ (f.filePath = "app.ts"))
    ∧ (deleteDesignFile true "p1" "app.ts" wC8).1.db.design_files
        = wC8.db.design_files.filter
            (fun r => !(r.project_id == "p1" && r.file_path == "app.ts" && r.user_id == ctx1.userId)) :=
  ⟨rfl, rfl,
   (C8_delete_asymmetry wC8 ctx1 "p1" "app.ts" rfl rfl).1,
   (C8_delete_asymmetry wC8 ctx1 "p1" "app.ts" rfl rfl).2.2.1,
   (C8_delete_asymmetry wC8 ctx1 "p1" "app.ts" rfl rfl).2.2.2.1⟩

end Persistence
